import Mathlib

/-!
Verification of the `swri_transform_util` LocalXY projection unit
(`local_xy_util.h`): the two free projection functions between WGS84
geodetic coordinates and a local planar coordinate system, and the
origin-bound converter class `LocalXyWgs84Util`.

The repository ships only the header with the declarations; the function
bodies are modelled from the design document (equirectangular projection
with the two WGS84 principal radii of curvature evaluated at the
reference latitude, plus a heading rotation in the converter).  Doubles
are idealised as real numbers.
-/

namespace SwriTransformUtil

noncomputable section

/-- WGS84 semi-major axis in meters. -/
def earth_a : ℝ := 6378137.0

/-- WGS84 flattening f = 1/298.257223563. -/
def earth_f : ℝ := 1 / 298.257223563

/-- WGS84 first eccentricity squared, e² = f(2−f). -/
def earth_e2 : ℝ := earth_f * (2 - earth_f)

/-- Degrees to radians. -/
def deg2rad (d : ℝ) : ℝ := d * Real.pi / 180

/-- Radians to degrees. -/
def rad2deg (r : ℝ) : ℝ := r * 180 / Real.pi

/-- Meridional radius of curvature at a reference latitude `phi` given in
radians.  Modelled from the spec: `rho_lat = a(1-e²) / (1-e² sin²(ref_lat))^1.5`
(the implementation file `local_xy_util.cpp` is not in the repository snapshot;
only its declaration in `local_xy_util.h` is). -/
def rho_lat (phi : ℝ) : ℝ :=
  earth_a * (1 - earth_e2) / (1 - earth_e2 * Real.sin phi ^ 2) ^ (1.5 : ℝ)

/-- Transverse radius of curvature at a reference latitude `phi` given in
radians, scaled by `cos phi`.  Modelled from the spec:
`rho_lon = a / sqrt(1-e² sin²(ref_lat)) · cos(ref_lat)`. -/
def rho_lon (phi : ℝ) : ℝ :=
  earth_a / Real.sqrt (1 - earth_e2 * Real.sin phi ^ 2) * Real.cos phi

/-- Modelled from the spec: forward projection `LocalXyFromWgs84`
(declared at `local_xy_util.h:53`; the defining `.cpp` is not in the snapshot).
`y = (latitude - reference_latitude) in radians × rho_lat`,
`x = (longitude - reference_longitude) in radians × rho_lon`,
with the radii evaluated at the reference latitude.  Returns `(x, y)`. -/
def LocalXyFromWgs84 (latitude longitude reference_latitude reference_longitude : ℝ) :
    ℝ × ℝ :=
  (deg2rad (longitude - reference_longitude) * rho_lon (deg2rad reference_latitude),
   deg2rad (latitude - reference_latitude) * rho_lat (deg2rad reference_latitude))

/-- Modelled from the spec: inverse projection `Wgs84FromLocalXy`
(declared at `local_xy_util.h:74`; the defining `.cpp` is not in the snapshot).
`latitude = reference_latitude + degrees(y / rho_lat)`,
`longitude = reference_longitude + degrees(x / rho_lon)`.
Returns `(latitude, longitude)`. -/
def Wgs84FromLocalXy (x y reference_latitude reference_longitude : ℝ) : ℝ × ℝ :=
  (reference_latitude + rad2deg (y / rho_lat (deg2rad reference_latitude)),
   reference_longitude + rad2deg (x / rho_lon (deg2rad reference_latitude)))

/-- State of the origin-bound converter `LocalXyWgs84Util`
(`local_xy_util.h:86-169`).  Angles are cached in radians, exactly as the
header's field comments state; `rho_lat_`, `rho_lon_`, `cos_heading_` and
`sin_heading_` are the derived constants cached at initialization. -/
structure LocalXyWgs84Util where
  reference_latitude_ : ℝ
  reference_longitude_ : ℝ
  reference_heading_ : ℝ
  reference_altitude_ : ℝ
  rho_lat_ : ℝ
  rho_lon_ : ℝ
  cos_heading_ : ℝ
  sin_heading_ : ℝ
  frame_ : String
  initialized_ : Bool

/-- Modelled from the spec: the fully-configured constructor
`LocalXyWgs84Util(reference_latitude, reference_longitude, reference_heading,
reference_altitude)` (`local_xy_util.h:97`).  Converts the degree inputs to
radians, caches the projection constants once, and is immediately
initialized. -/
def LocalXyWgs84Util.init (rlat rlon rheading raltitude : ℝ) : LocalXyWgs84Util :=
  { reference_latitude_ := deg2rad rlat
    reference_longitude_ := deg2rad rlon
    reference_heading_ := deg2rad rheading
    reference_altitude_ := raltitude
    rho_lat_ := rho_lat (deg2rad rlat)
    rho_lon_ := rho_lon (deg2rad rlat)
    cos_heading_ := Real.cos (deg2rad rheading)
    sin_heading_ := Real.sin (deg2rad rheading)
    frame_ := ""
    initialized_ := true }

/-- Modelled from the spec: the default constructor `LocalXyWgs84Util()`
(`local_xy_util.h:104`): uninitialized, reference values zero (accessors must
return 0 until initialized), heading defaults to 0. -/
def LocalXyWgs84Util.defaultCtor : LocalXyWgs84Util :=
  { reference_latitude_ := 0
    reference_longitude_ := 0
    reference_heading_ := 0
    reference_altitude_ := 0
    rho_lat_ := rho_lat 0
    rho_lon_ := rho_lon 0
    cos_heading_ := 1
    sin_heading_ := 0
    frame_ := ""
    initialized_ := false }

/-- `Initialized()` (`local_xy_util.h:106`). -/
def LocalXyWgs84Util.Initialized (s : LocalXyWgs84Util) : Bool := s.initialized_

/-- `Frame()` (`local_xy_util.h:116`). -/
def LocalXyWgs84Util.Frame (s : LocalXyWgs84Util) : String := s.frame_

/-- Modelled from the spec: `ReferenceLatitude()` returns the stored radian
value converted back to degrees (`local_xy_util.h:110`). -/
def LocalXyWgs84Util.ReferenceLatitude (s : LocalXyWgs84Util) : ℝ :=
  rad2deg s.reference_latitude_

/-- Modelled from the spec: `ReferenceLongitude()` (`local_xy_util.h:108`). -/
def LocalXyWgs84Util.ReferenceLongitude (s : LocalXyWgs84Util) : ℝ :=
  rad2deg s.reference_longitude_

/-- Modelled from the spec: `ReferenceHeading()` (`local_xy_util.h:112`). -/
def LocalXyWgs84Util.ReferenceHeading (s : LocalXyWgs84Util) : ℝ :=
  rad2deg s.reference_heading_

/-- Modelled from the spec: `ReferenceAltitude()` returns the stored meters
(`local_xy_util.h:114`). -/
def LocalXyWgs84Util.ReferenceAltitude (s : LocalXyWgs84Util) : ℝ :=
  s.reference_altitude_

/-- Modelled from the spec: `ToLocalXy` (`local_xy_util.h:128`).  Returns
`none` (C++: `false`) when the converter is uninitialized; otherwise applies
the forward projection with the cached origin and radii and then rotates the
unrotated offset `(dx, dy)` by the heading:
`x = dx·cos_heading + dy·sin_heading`, `y = -dx·sin_heading + dy·cos_heading`. -/
def LocalXyWgs84Util.ToLocalXy (s : LocalXyWgs84Util) (latitude longitude : ℝ) :
    Option (ℝ × ℝ) :=
  if s.initialized_ then
    some ((deg2rad longitude - s.reference_longitude_) * s.rho_lon_ * s.cos_heading_ +
            (deg2rad latitude - s.reference_latitude_) * s.rho_lat_ * s.sin_heading_,
          -((deg2rad longitude - s.reference_longitude_) * s.rho_lon_) * s.sin_heading_ +
            (deg2rad latitude - s.reference_latitude_) * s.rho_lat_ * s.cos_heading_)
  else none

/-- Modelled from the spec: `ToWgs84` (`local_xy_util.h:144`).  Returns `none`
(C++: `false`) when the converter is uninitialized; otherwise un-rotates
`(x, y)` by the heading (the algebraic inverse of the rotation in `ToLocalXy`)
and applies the inverse projection with the cached origin and radii. -/
def LocalXyWgs84Util.ToWgs84 (s : LocalXyWgs84Util) (x y : ℝ) : Option (ℝ × ℝ) :=
  if s.initialized_ then
    some (rad2deg (s.reference_latitude_ +
            (x * s.sin_heading_ + y * s.cos_heading_) / s.rho_lat_),
          rad2deg (s.reference_longitude_ +
            (x * s.cos_heading_ - y * s.sin_heading_) / s.rho_lon_))
  else none

/-- An origin configuration event: `(latitude, longitude, altitude, frame)` in
degrees/degrees/meters.  Modelled from the spec: this is the payload of the
external origin message consumed by `HandleOrigin` (`local_xy_util.h:168`);
heading is not supplied by the event. -/
structure OriginEvent where
  latitude : ℝ
  longitude : ℝ
  altitude : ℝ
  frame : String

/-- Modelled from the spec: the one-shot origin configuration
(`setOrigin` in the spec, realised by `HandleOrigin` at `local_xy_util.h:168`).
If the converter is already initialized the event is ignored (one-shot latch);
otherwise the origin is stored in radians, the projection constants are
cached, and the converter becomes initialized. -/
def LocalXyWgs84Util.setOrigin (s : LocalXyWgs84Util) (e : OriginEvent) :
    LocalXyWgs84Util :=
  if s.initialized_ then s
  else
    { s with
      reference_latitude_ := deg2rad e.latitude
      reference_longitude_ := deg2rad e.longitude
      reference_altitude_ := e.altitude
      rho_lat_ := rho_lat (deg2rad e.latitude)
      rho_lon_ := rho_lon (deg2rad e.latitude)
      frame_ := e.frame
      initialized_ := true }

/-- One lifecycle step of the converter: the only state-mutating operation the
unit has is the origin configuration event. -/
def LocalXyWgs84Util.step (s : LocalXyWgs84Util) (e : OriginEvent) :
    LocalXyWgs84Util :=
  s.setOrigin e

/-- The C++ method `ToLocalXy` is declared `const` (`local_xy_util.h:128-132`):
the call cannot modify the receiver.  State-passing embedding of the call,
returning the post-call state together with the result. -/
def LocalXyWgs84Util.toLocalXyCall (s : LocalXyWgs84Util) (latitude longitude : ℝ) :
    LocalXyWgs84Util × Option (ℝ × ℝ) :=
  (s, s.ToLocalXy latitude longitude)

/-- The C++ method `ToWgs84` is declared `const` (`local_xy_util.h:144-148`).
State-passing embedding of the call. -/
def LocalXyWgs84Util.toWgs84Call (s : LocalXyWgs84Util) (x y : ℝ) :
    LocalXyWgs84Util × Option (ℝ × ℝ) :=
  (s, s.ToWgs84 x y)

/-- The C++ method `Initialized` is declared `const` (`local_xy_util.h:106`).
State-passing embedding of the call. -/
def LocalXyWgs84Util.initializedCall (s : LocalXyWgs84Util) :
    LocalXyWgs84Util × Bool :=
  (s, s.Initialized)

/-- The C++ method `Frame` is declared `const` (`local_xy_util.h:116`).
State-passing embedding of the call. -/
def LocalXyWgs84Util.frameCall (s : LocalXyWgs84Util) :
    LocalXyWgs84Util × String :=
  (s, s.Frame)

/-- The C++ accessors `ReferenceLongitude`, `ReferenceLatitude`,
`ReferenceHeading` and `ReferenceAltitude` are declared `const`
(`local_xy_util.h:108-114`).  State-passing embedding of the four calls. -/
def LocalXyWgs84Util.referenceAccessorsCall (s : LocalXyWgs84Util) :
    LocalXyWgs84Util × (ℝ × ℝ × ℝ × ℝ) :=
  (s, (s.ReferenceLatitude, s.ReferenceLongitude, s.ReferenceHeading,
       s.ReferenceAltitude))

end

/-! ### Helper lemmas -/

lemma rad2deg_deg2rad (z : ℝ) : rad2deg (deg2rad z) = z := by
  have hpi : Real.pi ≠ 0 := Real.pi_ne_zero
  unfold rad2deg deg2rad
  field_simp

lemma deg2rad_rad2deg (z : ℝ) : deg2rad (rad2deg z) = z := by
  have hpi : Real.pi ≠ 0 := Real.pi_ne_zero
  unfold rad2deg deg2rad
  field_simp

lemma deg2rad_sub (a b : ℝ) : deg2rad (a - b) = deg2rad a - deg2rad b := by
  unfold deg2rad; ring

lemma rad2deg_add (a b : ℝ) : rad2deg (a + b) = rad2deg a + rad2deg b := by
  unfold rad2deg; ring

lemma rad2deg_zero : rad2deg 0 = 0 := by
  unfold rad2deg; simp

lemma deg2rad_strictMono (a b : ℝ) (h : a < b) : deg2rad a < deg2rad b := by
  have hpi := Real.pi_pos
  have hab := mul_lt_mul_of_pos_right h hpi
  unfold deg2rad
  linarith

lemma earth_e2_pos : 0 < earth_e2 := by
  unfold earth_e2 earth_f; norm_num

lemma earth_e2_lt_one : earth_e2 < 1 := by
  unfold earth_e2 earth_f; norm_num

lemma one_sub_e2_sin_sq_pos (phi : ℝ) : 0 < 1 - earth_e2 * Real.sin phi ^ 2 := by
  have h1 : Real.sin phi ^ 2 ≤ 1 := Real.sin_sq_le_one phi
  nlinarith [earth_e2_pos, earth_e2_lt_one]

lemma rho_lat_pos (phi : ℝ) : 0 < rho_lat phi := by
  unfold rho_lat
  have hnum : (0 : ℝ) < earth_a * (1 - earth_e2) := by
    have := earth_e2_lt_one
    unfold earth_a; nlinarith
  exact div_pos hnum (Real.rpow_pos_of_pos (one_sub_e2_sin_sq_pos phi) _)

lemma cos_deg2rad_pos (d : ℝ) (h1 : -89 < d) (h2 : d < 89) :
    0 < Real.cos (deg2rad d) := by
  have hpi := Real.pi_pos
  apply Real.cos_pos_of_mem_Ioo
  have hlo : -89 * Real.pi < d * Real.pi := by nlinarith
  have hhi : d * Real.pi < 89 * Real.pi := by nlinarith
  unfold deg2rad
  constructor
  · dsimp only; nlinarith
  · dsimp only; nlinarith

lemma rho_lon_pos (d : ℝ) (h1 : -89 < d) (h2 : d < 89) :
    0 < rho_lon (deg2rad d) := by
  unfold rho_lon
  have hsq := one_sub_e2_sin_sq_pos (deg2rad d)
  have ha : (0 : ℝ) < earth_a := by unfold earth_a; norm_num
  exact mul_pos (div_pos ha (Real.sqrt_pos.mpr hsq)) (cos_deg2rad_pos d h1 h2)

/-- Converting to LocalXY and back recovers the input for any initialized
state whose cached heading terms lie on the unit circle and whose cached
radii are nonzero: the heading rotation in `ToLocalXy` is the algebraic
inverse of the un-rotation in `ToWgs84`. -/
lemma toWgs84_toLocalXy_state (s : LocalXyWgs84Util) (hin : s.initialized_ = true)
    (hc : s.cos_heading_ ^ 2 + s.sin_heading_ ^ 2 = 1)
    (ha : s.rho_lat_ ≠ 0) (ho : s.rho_lon_ ≠ 0) (lat lon : ℝ) :
    (s.ToLocalXy lat lon).bind (fun p => s.ToWgs84 p.1 p.2) = some (lat, lon) := by
  unfold LocalXyWgs84Util.ToLocalXy LocalXyWgs84Util.ToWgs84
  rw [if_pos hin]
  dsimp only [Option.bind]
  rw [if_pos hin]
  set dx := (deg2rad lon - s.reference_longitude_) * s.rho_lon_ with hdx
  set dy := (deg2rad lat - s.reference_latitude_) * s.rho_lat_ with hdy
  have h1 : (dx * s.cos_heading_ + dy * s.sin_heading_) * s.sin_heading_ +
      (-dx * s.sin_heading_ + dy * s.cos_heading_) * s.cos_heading_ = dy := by
    linear_combination dy * hc
  have h2 : (dx * s.cos_heading_ + dy * s.sin_heading_) * s.cos_heading_ -
      (-dx * s.sin_heading_ + dy * s.cos_heading_) * s.sin_heading_ = dx := by
    linear_combination dx * hc
  rw [h1, h2]
  have e1 : s.reference_latitude_ + dy / s.rho_lat_ = deg2rad lat := by
    rw [hdy, mul_div_assoc, div_self ha, mul_one]; ring
  have e2 : s.reference_longitude_ + dx / s.rho_lon_ = deg2rad lon := by
    rw [hdx, mul_div_assoc, div_self ho, mul_one]; ring
  rw [e1, e2, rad2deg_deg2rad, rad2deg_deg2rad]

/-! ### Claim theorems -/

/-- C4: for every reference point `(rlat, rlon)`,
`LocalXyFromWgs84(rlat, rlon, rlat, rlon)` yields exactly `(x, y) = (0, 0)`. -/
theorem localXyFromWgs84_at_origin (rlat rlon : ℝ) :
    LocalXyFromWgs84 rlat rlon rlat rlon = (0, 0) := by
  simp [LocalXyFromWgs84, deg2rad]

/-- C2: for every converter state and every input, `ToLocalXy` and `ToWgs84`
signal failure (C++ `false`, modelled as `none`) exactly when the converter is
not initialized; when initialized every input, including out-of-range geodetic
values, produces a result (C++ `true`), and the total functions never raise. -/
theorem toLocalXy_toWgs84_fail_iff_uninitialized (s : LocalXyWgs84Util)
    (latitude longitude x y : ℝ) :
    (s.ToLocalXy latitude longitude = none ↔ s.Initialized = false) ∧
    (s.ToWgs84 x y = none ↔ s.Initialized = false) ∧
    (s.Initialized = true → (s.ToLocalXy latitude longitude).isSome = true) ∧
    (s.Initialized = true → (s.ToWgs84 x y).isSome = true) := by
  cases h : s.initialized_ <;>
    simp [LocalXyWgs84Util.ToLocalXy, LocalXyWgs84Util.ToWgs84,
      LocalXyWgs84Util.Initialized, h]

/-- C3: `LocalXyFromWgs84` computes
`y = (latitude - reference_latitude)` in radians `× rho_lat` and
`x = (longitude - reference_longitude)` in radians `× rho_lon`, with
`rho_lat = a(1-e²)/(1-e² sin²(ref_lat))^1.5`,
`rho_lon = a / sqrt(1-e² sin²(ref_lat)) · cos(ref_lat)`,
`a = 6378137` m and `e² ≈ 0.00669437999014`. -/
theorem localXyFromWgs84_formula :
    (∀ latitude longitude rlat rlon : ℝ,
      LocalXyFromWgs84 latitude longitude rlat rlon =
        ((longitude - rlon) * Real.pi / 180 *
           (earth_a / Real.sqrt
              (1 - earth_e2 * Real.sin (rlat * Real.pi / 180) ^ 2) *
            Real.cos (rlat * Real.pi / 180)),
         (latitude - rlat) * Real.pi / 180 *
           (earth_a * (1 - earth_e2) /
              (1 - earth_e2 * Real.sin (rlat * Real.pi / 180) ^ 2) ^ (1.5 : ℝ)))) ∧
    earth_a = 6378137 ∧ |earth_e2 - 0.00669437999014| < 1e-12 := by
  refine ⟨fun latitude longitude rlat rlon => rfl, by unfold earth_a; norm_num, ?_⟩
  rw [abs_lt]
  unfold earth_e2 earth_f
  norm_num

/-- C1: for every `(lat, lon)` and reference point with `rlat ∈ (-89, 89)`
degrees, `Wgs84FromLocalXy` applied to the output of `LocalXyFromWgs84` (same
reference) recovers `(lat, lon)` exactly (hence within any floating-point
tolerance such as 1e-9 degrees, for any offset); and `Wgs84FromLocalXy` is the
mathematical inverse of `LocalXyFromWgs84` for any `(x, y)`. -/
theorem wgs84_localXy_roundtrip (lat lon x y rlat rlon : ℝ)
    (h1 : -89 < rlat) (h2 : rlat < 89) :
    Wgs84FromLocalXy (LocalXyFromWgs84 lat lon rlat rlon).1
        (LocalXyFromWgs84 lat lon rlat rlon).2 rlat rlon = (lat, lon) ∧
    LocalXyFromWgs84 (Wgs84FromLocalXy x y rlat rlon).1
        (Wgs84FromLocalXy x y rlat rlon).2 rlat rlon = (x, y) := by
  have ha : rho_lat (deg2rad rlat) ≠ 0 := ne_of_gt (rho_lat_pos _)
  have ho : rho_lon (deg2rad rlat) ≠ 0 := ne_of_gt (rho_lon_pos rlat h1 h2)
  unfold LocalXyFromWgs84 Wgs84FromLocalXy
  simp only [Prod.mk.injEq]
  refine ⟨⟨?_, ?_⟩, ?_, ?_⟩
  · rw [mul_div_assoc, div_self ha, mul_one, rad2deg_deg2rad]; ring
  · rw [mul_div_assoc, div_self ho, mul_one, rad2deg_deg2rad]; ring
  · rw [add_sub_cancel_left, deg2rad_rad2deg, div_mul_cancel₀ _ ho]
  · rw [add_sub_cancel_left, deg2rad_rad2deg, div_mul_cancel₀ _ ha]

/-- Witness for C1 at the concrete reference `(0, 0)` with
`(lat, lon) = (1, 2)` and `(x, y) = (3, 4)`. -/
theorem wgs84_localXy_roundtrip_witness :
    ((-89 : ℝ) < 0 ∧ (0 : ℝ) < 89) ∧
    (Wgs84FromLocalXy (LocalXyFromWgs84 1 2 0 0).1
        (LocalXyFromWgs84 1 2 0 0).2 0 0 = (1, 2) ∧
     LocalXyFromWgs84 (Wgs84FromLocalXy 3 4 0 0).1
        (Wgs84FromLocalXy 3 4 0 0).2 0 0 = (3, 4)) :=
  ⟨⟨by norm_num, by norm_num⟩,
   wgs84_localXy_roundtrip 1 2 3 4 0 0 (by norm_num) (by norm_num)⟩

/-- C9: for fixed longitude and reference point, `LocalXyFromWgs84` is
strictly increasing in latitude with respect to `y` (for every reference
latitude: `rho_lat` is always positive); for fixed latitude it is strictly
increasing in longitude with respect to `x` away from the poles
(`rlat ∈ (-89, 89)`), the carve-out the claim itself makes. -/
theorem localXyFromWgs84_monotone :
    (∀ rlat rlon lon lat1 lat2 : ℝ, lat1 < lat2 →
      (LocalXyFromWgs84 lat1 lon rlat rlon).2 < (LocalXyFromWgs84 lat2 lon rlat rlon).2) ∧
    (∀ rlat rlon lat lon1 lon2 : ℝ, -89 < rlat → rlat < 89 → lon1 < lon2 →
      (LocalXyFromWgs84 lat lon1 rlat rlon).1 < (LocalXyFromWgs84 lat lon2 rlat rlon).1) := by
  constructor
  · intro rlat rlon lon lat1 lat2 hlt
    have hrho := rho_lat_pos (deg2rad rlat)
    unfold LocalXyFromWgs84
    dsimp only
    exact mul_lt_mul_of_pos_right (deg2rad_strictMono _ _ (by linarith)) hrho
  · intro rlat rlon lat lon1 lon2 h1 h2 hlt
    have hrho := rho_lon_pos rlat h1 h2
    unfold LocalXyFromWgs84
    dsimp only
    exact mul_lt_mul_of_pos_right (deg2rad_strictMono _ _ (by linarith)) hrho

/-- Witness for C9 at the reference `(0, 0)`: one degree of latitude
(respectively longitude) strictly increases `y` (respectively `x`). -/
theorem localXyFromWgs84_monotone_witness :
    ((0 : ℝ) < 1 ∧ (-89 : ℝ) < 0 ∧ (0 : ℝ) < 89) ∧
    (LocalXyFromWgs84 0 0 0 0).2 < (LocalXyFromWgs84 1 0 0 0).2 ∧
    (LocalXyFromWgs84 0 0 0 0).1 < (LocalXyFromWgs84 0 1 0 0).1 :=
  ⟨⟨by norm_num, by norm_num, by norm_num⟩,
   localXyFromWgs84_monotone.1 0 0 0 0 1 (by norm_num),
   localXyFromWgs84_monotone.2 0 0 0 0 1 (by norm_num) (by norm_num) (by norm_num)⟩

/-- C7: a converter constructed with explicit reference values reports exactly
the degree values originally supplied (and the supplied altitude in meters)
despite the internal radian storage; a default-constructed converter's
reference accessors all return 0. -/
theorem reference_accessors_exact :
    (∀ rlat rlon rheading raltitude : ℝ,
      (LocalXyWgs84Util.init rlat rlon rheading raltitude).ReferenceLatitude = rlat ∧
      (LocalXyWgs84Util.init rlat rlon rheading raltitude).ReferenceLongitude = rlon ∧
      (LocalXyWgs84Util.init rlat rlon rheading raltitude).ReferenceHeading = rheading ∧
      (LocalXyWgs84Util.init rlat rlon rheading raltitude).ReferenceAltitude = raltitude) ∧
    (LocalXyWgs84Util.defaultCtor.ReferenceLatitude = 0 ∧
     LocalXyWgs84Util.defaultCtor.ReferenceLongitude = 0 ∧
     LocalXyWgs84Util.defaultCtor.ReferenceHeading = 0 ∧
     LocalXyWgs84Util.defaultCtor.ReferenceAltitude = 0) := by
  refine ⟨fun rlat rlon rheading raltitude => ?_, ?_⟩ <;>
    simp [LocalXyWgs84Util.init, LocalXyWgs84Util.defaultCtor,
      LocalXyWgs84Util.ReferenceLatitude, LocalXyWgs84Util.ReferenceLongitude,
      LocalXyWgs84Util.ReferenceHeading, LocalXyWgs84Util.ReferenceAltitude,
      rad2deg_deg2rad, rad2deg_zero]

/-- C6: the converter lifecycle is a one-way machine
Uninitialized → Initialized: the explicit constructor is initialized
immediately; the default constructor is uninitialized; the origin event
initializes it; and once initialized, any further sequence of origin events
leaves the whole state (origin, cached constants, frame, flag) unchanged —
in particular `initialized` never returns to `false`. -/
theorem lifecycle_one_way :
    (∀ rlat rlon rheading raltitude : ℝ,
      (LocalXyWgs84Util.init rlat rlon rheading raltitude).Initialized = true) ∧
    LocalXyWgs84Util.defaultCtor.Initialized = false ∧
    (∀ e : OriginEvent, (LocalXyWgs84Util.defaultCtor.step e).Initialized = true) ∧
    (∀ s : LocalXyWgs84Util, s.Initialized = true →
      ∀ events : List OriginEvent, events.foldl LocalXyWgs84Util.step s = s) := by
  refine ⟨fun _ _ _ _ => rfl, rfl, fun e => rfl, fun s h events => ?_⟩
  unfold LocalXyWgs84Util.Initialized at h
  induction events with
  | nil => rfl
  | cons e es ih =>
      have hstep : s.step e = s := by
        unfold LocalXyWgs84Util.step LocalXyWgs84Util.setOrigin
        rw [if_pos h]
      rw [List.foldl_cons, hstep, ih]

/-- Witness for C6: a converter built at `(1°, 2°)` with heading 3° and
altitude 4 m is initialized, and an origin event does not change it. -/
theorem lifecycle_one_way_witness :
    (LocalXyWgs84Util.init 1 2 3 4).Initialized = true ∧
    [OriginEvent.mk 5 6 7 "map"].foldl LocalXyWgs84Util.step
        (LocalXyWgs84Util.init 1 2 3 4) = LocalXyWgs84Util.init 1 2 3 4 :=
  ⟨rfl, lifecycle_one_way.2.2.2 (LocalXyWgs84Util.init 1 2 3 4) rfl
    [OriginEvent.mk 5 6 7 "map"]⟩

/-- C8: `setOrigin` (the explicit configuration entry point, decoupled from
any transport) moves the converter into the Initialized state: after the call
`Initialized` is `true` and every subsequent conversion call succeeds
(returns a result, C++ `true`). -/
theorem setOrigin_initializes (s : LocalXyWgs84Util) (e : OriginEvent) :
    (s.setOrigin e).Initialized = true ∧
    (∀ latitude longitude : ℝ,
      ((s.setOrigin e).ToLocalXy latitude longitude).isSome = true) ∧
    (∀ x y : ℝ, ((s.setOrigin e).ToWgs84 x y).isSome = true) := by
  have h : (s.setOrigin e).initialized_ = true := by
    unfold LocalXyWgs84Util.setOrigin
    cases hs : s.initialized_ <;> simp [hs]
  exact ⟨h, fun latitude longitude => by
      simp [LocalXyWgs84Util.ToLocalXy, h],
    fun x y => by simp [LocalXyWgs84Util.ToWgs84, h]⟩

/-- C10: all query and conversion methods are `const` operations: the
state-passing embeddings of `ToLocalXy`, `ToWgs84`, `Initialized`, `Frame`
and the four reference accessors return the converter state unchanged, for
every state — in particular also on the uninitialized (`none` result) path,
so a failed conversion leaves the converter exactly as it was. -/
theorem const_methods_preserve_state (s : LocalXyWgs84Util)
    (latitude longitude x y : ℝ) :
    (s.toLocalXyCall latitude longitude).1 = s ∧
    (s.toWgs84Call x y).1 = s ∧
    s.initializedCall.1 = s ∧
    s.frameCall.1 = s ∧
    s.referenceAccessorsCall.1 = s :=
  ⟨rfl, rfl, rfl, rfl, rfl⟩

/-- C5: a converter initialized with heading 0 computes exactly the free
functions `LocalXyFromWgs84` / `Wgs84FromLocalXy` with the same reference
point; and for every heading in `[0, 360)` (with `rlat ∈ (-89, 89)`),
`ToWgs84` applied to the output of `ToLocalXy` recovers the original
`(latitude, longitude)` exactly — the heading rotation of `ToLocalXy` is the
algebraic inverse of the un-rotation of `ToWgs84`. -/
theorem converter_matches_free_and_roundtrips :
    (∀ rlat rlon raltitude lat lon x y : ℝ,
      (LocalXyWgs84Util.init rlat rlon 0 raltitude).ToLocalXy lat lon =
        some (LocalXyFromWgs84 lat lon rlat rlon) ∧
      (LocalXyWgs84Util.init rlat rlon 0 raltitude).ToWgs84 x y =
        some (Wgs84FromLocalXy x y rlat rlon)) ∧
    (∀ rlat rlon rheading raltitude lat lon : ℝ,
      -89 < rlat → rlat < 89 → 0 ≤ rheading → rheading < 360 →
      ((LocalXyWgs84Util.init rlat rlon rheading raltitude).ToLocalXy lat lon).bind
        (fun p =>
          (LocalXyWgs84Util.init rlat rlon rheading raltitude).ToWgs84 p.1 p.2) =
        some (lat, lon)) := by
  have h0 : deg2rad 0 = 0 := by unfold deg2rad; ring
  constructor
  · intro rlat rlon raltitude lat lon x y
    constructor
    · unfold LocalXyWgs84Util.init LocalXyWgs84Util.ToLocalXy LocalXyFromWgs84
      simp only [h0, Real.cos_zero, Real.sin_zero, if_true, mul_one, mul_zero,
        add_zero, neg_zero, zero_add, deg2rad_sub, Prod.mk.injEq, Option.some.injEq]
    · unfold LocalXyWgs84Util.init LocalXyWgs84Util.ToWgs84 Wgs84FromLocalXy
      simp only [h0, Real.cos_zero, Real.sin_zero, if_true, mul_one, mul_zero,
        zero_add, add_zero, sub_zero, rad2deg_add, rad2deg_deg2rad,
        Prod.mk.injEq, Option.some.injEq]
  · intro rlat rlon rheading raltitude lat lon hr1 hr2 _ _
    exact toWgs84_toLocalXy_state _ rfl (Real.cos_sq_add_sin_sq _)
      (ne_of_gt (rho_lat_pos _)) (ne_of_gt (rho_lon_pos rlat hr1 hr2)) lat lon

/-- Witness for C5 at the reference `(0°, 0°)` with heading 90°:
the converter round-trips `(lat, lon) = (1, 2)` exactly. -/
theorem converter_matches_free_and_roundtrips_witness :
    ((-89 : ℝ) < 0 ∧ (0 : ℝ) < 89 ∧ (0 : ℝ) ≤ 90 ∧ (90 : ℝ) < 360) ∧
    ((LocalXyWgs84Util.init 0 0 90 0).ToLocalXy 1 2).bind
      (fun p => (LocalXyWgs84Util.init 0 0 90 0).ToWgs84 p.1 p.2) = some (1, 2) :=
  ⟨⟨by norm_num, by norm_num, by norm_num, by norm_num⟩,
   converter_matches_free_and_roundtrips.2 0 0 90 0 1 2
     (by norm_num) (by norm_num) (by norm_num) (by norm_num)⟩

end SwriTransformUtil
